import Mathlib

/-!
Verification of the meal-list synchronization layer (meals.tsx, calendar.tsx).

Shallow embedding conventions:
* JavaScript numbers that hold nutrition values or parsed filter bounds are
  modelled as rationals.  A bound string whose `parseFloat` is `NaN`
  (the empty string or any unparseable string) is modelled as `none`,
  a finite parse as `some q`.
* A nutrition field that is missing from a record, is `null`, or does not
  parse to a number is modelled as `none`; in the source all of these make
  the corresponding bound check pass (the `in` guard and the `NaN`
  comparison semantics respectively).
* React state (`useState`) is modelled as an explicit record.  A handler
  invocation reads the snapshot its closure captured at render time, and
  its `setX` calls write the hook store; for a single invocation the two
  coincide and the handler is a function from state to state.  Where a
  behaviour involves several calls through the same closure (the
  load-more guard, the automatic retry chain), the captured snapshot and
  the store are threaded separately, because `setX` never changes the
  values an already-created closure has captured.
-/

/-- Character-level substring test, modelling JavaScript
`String.prototype.includes` (case sensitive). -/
def strIncludes (s sub : String) : Bool :=
  decide (sub.toList <:+: s.toList)

/-- ASCII lower-casing of one character, modelling
`String.prototype.toLowerCase` on the ASCII range. -/
def charLower (c : Char) : Char :=
  if 65 ≤ c.toNat ∧ c.toNat ≤ 90 then Char.ofNat (c.toNat + 32) else c

/-- ASCII lower-casing of a string (`toLowerCase`). -/
def strLower (s : String) : String :=
  String.mk (s.toList.map charLower)

/-- Character-level test that `p` starts the string `s`, modelling
JavaScript `String.prototype.startsWith`. -/
def strStartsWith (s p : String) : Bool :=
  decide (p.toList <+: s.toList)

/-- Meal identifiers are numeric database ids or strings (derived records
use string ids of the shape "macro_<n>"). -/
inductive MealId where
  | num (n : Int)
  | str (s : String)
deriving DecidableEq, Repr

/-- A derived (machine-generated) record id: a string id starting with
"macro_", as tested by `mealId.startsWith('macro_')` in `toggleFavorite`. -/
def isMacroId : MealId → Bool
  | .num _ => false
  | .str s => strStartsWith s "macro_"

/-- The record ("meal") fields the synchronization layer inspects.  The
four nutrition fields are optional: `none` models an absent or
non-numeric value (see the file header). -/
structure Meal where
  id : MealId
  name : String
  description : String
  calories : Option ℚ
  protein : Option ℚ
  carbohydrates : Option ℚ
  fat : Option ℚ
  favorite : Bool
deriving DecidableEq, Repr

/-- The four filterable nutrition fields, as carried by the `type` field of
the filter entries built in `MyMeals` (`calories`, `fat`, `protein`,
`carbohydrates`). -/
inductive NutritionField where
  | calories
  | fat
  | protein
  | carbohydrates
deriving DecidableEq, Repr

/-- One numeric filter entry `{ type, greaterThan, lessThan }`; the bounds
hold the `parseFloat` of the bound strings (`none` = `NaN`). -/
structure NutritionFilter where
  type : NutritionField
  greaterThan : Option ℚ
  lessThan : Option ℚ
deriving DecidableEq, Repr

/-- Field access `meal[filter.type]` for the four nutrition fields. -/
def getField (meal : Meal) : NutritionField → Option ℚ
  | .calories => meal.calories
  | .fat => meal.fat
  | .protein => meal.protein
  | .carbohydrates => meal.carbohydrates

/-- One step of the `filters.every` callback in the `filteredMeals` effect
of `MyMeals`: with the field value present, reject when
`mealValue <= greaterThanValue` (bound parsed) or
`mealValue >= lessThanValue` (bound parsed); otherwise pass. -/
def passesOneFilter (meal : Meal) (f : NutritionFilter) : Bool :=
  match getField meal f.type with
  | none => true
  | some mealValue =>
      !(match f.greaterThan with
        | some g => decide (mealValue ≤ g)
        | none => false) &&
      !(match f.lessThan with
        | some l => decide (l ≤ mealValue)
        | none => false)

/-- `filters.every(...)` over all numeric filter entries. -/
def passesFilters (meal : Meal) (filters : List NutritionFilter) : Bool :=
  filters.all (passesOneFilter meal)

/-- The search predicate of the `filteredMeals` effect: an empty query
passes, otherwise a case-insensitive substring match on name or
description. -/
def passesSearch (meal : Meal) (searchQuery : String) : Bool :=
  searchQuery == "" ||
  strIncludes (strLower meal.name) (strLower searchQuery) ||
  strIncludes (strLower meal.description) (strLower searchQuery)

/-- The filter evaluation `meals.filter(...)` computing `filteredMeals`. -/
def evaluateMeals (meals : List Meal) (filters : List NutritionFilter)
    (searchQuery : String) : List Meal :=
  meals.filter (fun meal => passesFilters meal filters && passesSearch meal searchQuery)

/-- The default filter list of `MyMeals` (all bounds are the empty string,
i.e. parse to `NaN`). -/
def defaultFilters : List NutritionFilter :=
  [⟨.calories, none, none⟩, ⟨.fat, none, none⟩,
   ⟨.protein, none, none⟩, ⟨.carbohydrates, none, none⟩]

/-- The page size of the flat list (`MEALS_PER_PAGE = 20`). -/
def MEALS_PER_PAGE : Nat := 20

/-- The `MyMeals` component state that the synchronization layer reads and
writes (React `useState` hooks, modelled as one record). -/
structure MealsState where
  meals : List Meal
  filteredMeals : List Meal
  filteredMealsReady : Bool
  loading : Bool
  refreshing : Bool
  error : Option String
  retryCount : Nat
  filtersLoaded : Bool
  currentPage : Nat
  hasMoreMeals : Bool
  loadingMore : Bool
  favoriteLoading : List MealId
deriving DecidableEq, Repr

/-- The initial hook values of `MyMeals`. -/
def initialState : MealsState where
  meals := []
  filteredMeals := []
  filteredMealsReady := false
  loading := true
  refreshing := false
  error := none
  retryCount := 0
  filtersLoaded := false
  currentPage := 0
  hasMoreMeals := true
  loadingMore := false
  favoriteLoading := []

/-- The flag updates at the top of `fetchMyMeals` (refresh / load-more /
initial branches, plus the `filteredMealsReady` reset). -/
def fetchBegin (s : MealsState) (isRefresh loadMore : Bool) : MealsState :=
  let s1 :=
    if isRefresh then
      { s with refreshing := true, error := none, currentPage := 0, hasMoreMeals := true }
    else if loadMore then
      { s with loadingMore := true }
    else
      { s with loading := true, error := none }
  if !loadMore then { s1 with filteredMealsReady := false } else s1

/-- Entering `fetchMyMeals`: the `if (!filtersLoaded) return` guard, then
the begin-of-fetch flag updates.  The boolean result records whether a
fetch (a remote/cache request) was actually started. -/
def fetchMyMealsStart (s : MealsState) (isRefresh loadMore : Bool) : MealsState × Bool :=
  if !s.filtersLoaded then (s, false)
  else (fetchBegin s isRefresh loadMore, true)

/-- `loadMoreMeals`: honour the call only when
`!loadingMore && hasMoreMeals && filteredMealsReady`, in which case it
invokes `fetchMyMeals(false, true)`.  The boolean result records whether a
request was issued. -/
def loadMoreMeals (s : MealsState) : MealsState × Bool :=
  if !s.loadingMore && s.hasMoreMeals && s.filteredMealsReady then
    fetchMyMealsStart s false true
  else (s, false)

/-- The success tail of `fetchMyMeals` applied to the returned batch
`newMeals`: append or replace the record list, set the page, set
`hasMoreMeals` to `newMeals.length === MEALS_PER_PAGE`, reset the retry
count, and clear the loading flags (the `finally` block). -/
def applyFetchSuccess (s : MealsState) (loadMore : Bool) (newMeals : List Meal) :
    MealsState :=
  let s1 :=
    if loadMore then
      { s with meals := s.meals ++ newMeals, currentPage := s.currentPage + 1 }
    else
      { s with meals := newMeals, currentPage := 0 }
  { s1 with hasMoreMeals := newMeals.length == MEALS_PER_PAGE, retryCount := 0,
            loading := false, refreshing := false, loadingMore := false }

/-- The catch/finally tail of `fetchMyMeals` on a failed fetch with error
message `msg`, as executed by the closure created at a render where
`retryCount` had the value `captured`: surface the error on the store,
clear the loading flags, and when `captured < 3` and the message does not
contain "Authentication", schedule a re-invocation of the same closure
after `Math.pow(2, captured) * 1000` milliseconds.  The
`setRetryCount(prev => prev + 1)` in the timeout callback increments the
store's count, but the guard and the delay read `captured`, which no
`setRetryCount` can change for this closure.  The optional result is the
scheduled retry: its backoff delay and the preserved
`(isRefresh, loadMore)` parameters. -/
def fetchFailureStep (store : MealsState) (captured : Nat) (isRefresh loadMore : Bool)
    (msg : String) : MealsState × Option (Nat × Bool × Bool) :=
  let errMsg := if msg = "" then "Failed to fetch meals. Please try again later." else msg
  let s1 := { store with error := some errMsg,
                         loading := false, refreshing := false, loadingMore := false }
  if captured < 3 && !(strIncludes msg "Authentication") then
    ({ s1 with retryCount := store.retryCount + 1 },
     some (2 ^ captured * 1000, isRefresh, loadMore))
  else (s1, none)

/-- The backoff delays of a run of consecutive fetch failures (one error
message per failed attempt).  Every attempt in the run is a re-invocation
of the same `fetchMyMeals` closure — the recursive
`fetchMyMeals(isRefresh, loadMore)` inside the `setTimeout` refers to the
closure's own render — so `captured` stays the same along the whole run
while the store's `retryCount` advances unseen. -/
def retryRun (store : MealsState) (captured : Nat) (isRefresh loadMore : Bool) :
    List String → List Nat
  | [] => []
  | msg :: rest =>
    match fetchFailureStep store captured isRefresh loadMore msg with
    | (store1, some (delay, _, _)) => delay :: retryRun store1 captured isRefresh loadMore rest
    | (_, none) => []

/-- The `filteredMeals` effect of `MyMeals`: recompute the visible subset,
mark the evaluation pass finished when `!loading || meals.length > 0`, and
when `filtered.length < 10 && hasMoreMeals && !loadingMore &&
meals.length > 0` schedule one (debounced) `loadMoreMeals` call.  The
boolean result records whether that backfill call was scheduled. -/
def filterEffect (s : MealsState) (filters : List NutritionFilter)
    (searchQuery : String) : MealsState × Bool :=
  let filtered := evaluateMeals s.meals filters searchQuery
  let s1 := { s with filteredMeals := filtered,
                     filteredMealsReady :=
                       if !s.loading || decide (0 < s.meals.length) then true
                       else s.filteredMealsReady }
  (s1, decide (filtered.length < 10) && s.hasMoreMeals && !s.loadingMore &&
       decide (0 < s.meals.length))

/-- Outcome of the remote `update` issued by `toggleFavorite`. -/
inductive RemoteResult where
  | ok
  | fail (msg : String)
deriving DecidableEq, Repr

/-- `toggleFavorite(mealId)` of `MyMeals`, with the outcome of the remote
update supplied as a parameter.  Returns the post-call state and whether a
remote call was issued.  Paths, in source order: the `favoriteLoading`
guard; the early return for "macro_" ids; `Meal not found` when the id is
absent; otherwise the optimistic flip, the remote update, and on remote
failure the rollback over the captured pre-call list plus the surfaced
error (the transient `favoriteLoading[mealId]` flag is set in `try` and
cleared in `finally`, so it is unchanged across the call). -/
def toggleFavorite (s : MealsState) (mealId : MealId) (remote : RemoteResult) :
    MealsState × Bool :=
  if mealId ∈ s.favoriteLoading then (s, false)
  else if isMacroId mealId then (s, false)
  else
    match s.meals.find? (fun meal => decide (meal.id = mealId)) with
    | none => ({ s with error := some "Meal not found" }, false)
    | some currentMeal =>
      let newFavoriteStatus := !currentMeal.favorite
      let updatedMeals := s.meals.map (fun meal =>
        if meal.id = mealId then { meal with favorite := newFavoriteStatus } else meal)
      match remote with
      | .ok => ({ s with meals := updatedMeals, error := none }, true)
      | .fail msg =>
        let revertedMeals := s.meals.map (fun meal =>
          if meal.id = mealId then { meal with favorite := currentMeal.favorite } else meal)
        let errMsg := if msg = "" then "Failed to update favorite status" else msg
        ({ s with meals := revertedMeals, error := some errMsg }, true)

/-- The value `fetchMealsForDate` resolves with, given the settled outcome
of its queries for that date: the transformed record list on success, and
`[]` on an error (after its internal retries are exhausted, every error
path of `fetchMealsForDate` returns the empty list). -/
def dateFetchResult : Except String (List Meal) → List Meal
  | .ok mealsForDate => mealsForDate
  | .error _ => []

/-- The `newMeals` object built by the fresh-fetch path of
`fetchMealsForWeek`: one entry per requested date, each holding that
date's own `fetchMealsForDate` result.  The per-date fetches are issued
together and joined with `Promise.all`; `fetchOutcome` gives each date's
settled outcome independently of the others. -/
def weekNewMeals (dates : List String)
    (fetchOutcome : String → Except String (List Meal)) :
    List (String × List Meal) :=
  dates.map (fun d => (d, dateFetchResult (fetchOutcome d)))

/-- Publishing the joined week result:
`setMeals(prev => ({ ...prev, ...newMeals }))` — an entry in `newMeals`
wins over the previous per-date map (association list, first match
wins on lookup). -/
def publishWeek (prevMeals : List (String × List Meal)) (dates : List String)
    (fetchOutcome : String → Except String (List Meal)) :
    List (String × List Meal) :=
  weekNewMeals dates fetchOutcome ++ prevMeals

/-- The accumulator of `calculateNutritionTotals` in the calendar view. -/
structure NutritionTotals where
  calories : ℚ
  protein : ℚ
  carbs : ℚ
  fat : ℚ
deriving DecidableEq, Repr

/-- One `reduce` step of `calculateNutritionTotals`: add each nutrition
field, a missing value (`meal.calories || 0` etc.) contributing 0. -/
def nutritionStep (totals : NutritionTotals) (meal : Meal) : NutritionTotals where
  calories := totals.calories + meal.calories.getD 0
  protein := totals.protein + meal.protein.getD 0
  carbs := totals.carbs + meal.carbohydrates.getD 0
  fat := totals.fat + meal.fat.getD 0

/-- `calculateNutritionTotals(mealsForDay)`: a `reduce` from the zero
accumulator. -/
def calculateNutritionTotals (mealsForDay : List Meal) : NutritionTotals :=
  mealsForDay.foldl nutritionStep ⟨0, 0, 0, 0⟩

/-- Sample records used by concrete witnesses. -/
def wMealA : Meal :=
  ⟨.num 1, "Pasta", "noodles with sauce", some 600, some 20, some 70, some 15, false⟩

/-- Second sample record used by concrete witnesses. -/
def wMealB : Meal :=
  ⟨.num 2, "Salad", "mixed greens", some 150, some 5, some 10, some 3, true⟩

lemma passesOneFilter_iff (meal : Meal) (f : NutritionFilter) :
    passesOneFilter meal f = true ↔
      ((∀ v g, getField meal f.type = some v → f.greaterThan = some g → g < v) ∧
       (∀ v l, getField meal f.type = some v → f.lessThan = some l → v < l)) := by
  unfold passesOneFilter
  rcases hv : getField meal f.type with _ | v <;>
    rcases hg : f.greaterThan with _ | g <;>
    rcases hl : f.lessThan with _ | l <;>
    simp [hv, hg, hl, not_le]

/-- C1: a record passes the numeric nutrition filters exactly when, for
every filter entry whose bound is set (parses to a number) and whose
field is present on the record, the record's value is strictly greater
than `greaterThan` and strictly less than `lessThan`; in particular a
value equal to either bound fails the strict inequality and excludes the
record, and a record on which the bounded field is absent passes that
bound (fail-open). -/
theorem filter_strict_bounds_iff (meal : Meal) (filters : List NutritionFilter) :
    passesFilters meal filters = true ↔
      ∀ f ∈ filters,
        ((∀ v g, getField meal f.type = some v → f.greaterThan = some g → g < v) ∧
         (∀ v l, getField meal f.type = some v → f.lessThan = some l → v < l)) := by
  simp [passesFilters, List.all_eq_true, passesOneFilter_iff]

/-- C2: with every numeric bound unset (the empty string parses to `NaN`)
and an empty search query, the filter evaluation returns exactly the
input list; and for every filter spec and query it is a pure function of
its inputs whose output is a subsequence of the input (order and
membership preserving, no side effects). -/
theorem evaluate_unset_identity (meals : List Meal) (filters : List NutritionFilter)
    (hunset : ∀ f ∈ filters, f.greaterThan = none ∧ f.lessThan = none) :
    evaluateMeals meals filters "" = meals ∧
    ∀ (fs : List NutritionFilter) (q : String), (evaluateMeals meals fs q).Sublist meals := by
  constructor
  · apply List.filter_eq_self.mpr
    intro meal _
    have h1 : passesFilters meal filters = true := by
      simp only [passesFilters, List.all_eq_true]
      intro f hf
      obtain ⟨hg, hl⟩ := hunset f hf
      rcases hv : getField meal f.type with _ | v <;>
        simp [passesOneFilter, hv, hg, hl]
    have h2 : passesSearch meal "" = true := rfl
    simp [h1, h2]
  · intro fs q
    exact List.filter_sublist meals

/-- Witness for C2 at a concrete two-record list. -/
theorem evaluate_unset_identity_witness :
    evaluateMeals [wMealA, wMealB] defaultFilters "" = [wMealA, wMealB] ∧
    (evaluateMeals [wMealA, wMealB] [⟨.calories, some 200, none⟩] "pasta").Sublist
      [wMealA, wMealB] :=
  ⟨(evaluate_unset_identity [wMealA, wMealB] defaultFilters (by decide)).1,
   (evaluate_unset_identity [wMealA, wMealB] defaultFilters (by decide)).2
     [⟨.calories, some 200, none⟩] "pasta"⟩

/-- A fetch batch of 21 records, as the cache path
(`cachedDataService.getUserMeals`) can return: it is not bounded by the
page size. -/
def batch21 : List Meal := List.replicate 21 wMealA

/-- C3 counterexample: for a completed fetch returning 21 records the
code sets `hasMoreMeals` to `false` (21 ≠ 20) although the batch size is
not strictly less than the page size of 20, so "set to false precisely
when the batch size is strictly less than 20" fails. -/
theorem hasMore_not_lt_page_size :
    ¬ (((applyFetchSuccess initialState false batch21).hasMoreMeals = false) ↔
        batch21.length < 20) := by decide

/-- C3 amended: after every completed fetch, `hasMoreMeals` is set to
`false` precisely when the returned batch size differs from the page size
of 20 (for remote batches, which the `range` query caps at 20, this
coincides with "strictly less than 20"); and once `hasMoreMeals` is
false, a subsequent `loadMore` call issues no further remote request. -/
theorem hasMore_iff_batch_ne_page_size (s : MealsState) (loadMore : Bool)
    (newMeals : List Meal) :
    ((applyFetchSuccess s loadMore newMeals).hasMoreMeals = false ↔
      newMeals.length ≠ 20) ∧
    (loadMoreMeals { s with hasMoreMeals := false }).2 = false := by
  constructor
  · cases loadMore <;> simp [applyFetchSuccess, MEALS_PER_PAGE]
  · simp [loadMoreMeals]

/-- One `loadMoreMeals` invocation under React closure semantics: the
guard `!loadingMore && hasMoreMeals && filteredMealsReady` and the
`filtersLoaded` check inside the triggered `fetchMyMeals(false, true)`
read the render-captured `snapshot`, while the `setLoadingMore(true)` of
the triggered fetch writes the hook `store`.  Returns the updated store
and whether a remote request was issued. -/
def loadMoreMealsCall (snapshot store : MealsState) : MealsState × Bool :=
  if !snapshot.loadingMore && snapshot.hasMoreMeals && snapshot.filteredMealsReady then
    if !snapshot.filtersLoaded then (store, false)
    else ({ store with loadingMore := true }, true)
  else (store, false)

/-- Two `loadMoreMeals` calls delivered in the same tick (for example a
scroll end-reached event and the pending 100 ms backfill timer): both run
against the same render snapshot, because the re-render that would
refresh the closures has not happened yet; the store accumulates their
writes.  Returns the final store and the number of remote requests
issued. -/
def loadMoreTwiceSameTick (snapshot : MealsState) : MealsState × Nat :=
  let c1 := loadMoreMealsCall snapshot snapshot
  let c2 := loadMoreMealsCall snapshot c1.1
  (c2.1, (if c1.2 then 1 else 0) + (if c2.2 then 1 else 0))

/-- The state captured by a render after data has loaded and one
filter-evaluation pass has completed: the load-more guard passes. -/
def c4State : MealsState :=
  { initialState with meals := [wMealA], filteredMeals := [wMealA], loading := false,
                      filtersLoaded := true, filteredMealsReady := true }

/-- C4: the claim fails on the code.  The load-more guard reads the
closure-captured `loadingMore`, and `setLoadingMore(true)` never updates
an already-created closure's captured values, so two `loadMore` calls in
the same tick both pass the guard: two remote requests are issued and two
load-more fetches are in flight for the same key, where the claim (and
the spec's idempotence requirement, which the guard clearly intends to
implement) requires the second call to be a no-op with exactly one
request. -/
theorem loadMore_double_fire (snapshot : MealsState)
    (h1 : snapshot.loadingMore = false) (h2 : snapshot.hasMoreMeals = true)
    (h3 : snapshot.filteredMealsReady = true) (h4 : snapshot.filtersLoaded = true) :
    (loadMoreTwiceSameTick snapshot).2 = 2 ∧
    (loadMoreTwiceSameTick snapshot).1.loadingMore = true := by
  simp [loadMoreTwiceSameTick, loadMoreMealsCall, h1, h2, h3, h4]

/-- Witness for C4: on the concrete post-load snapshot, two same-tick
`loadMore` calls issue two remote requests. -/
theorem loadMore_double_fire_witness :
    (loadMoreTwiceSameTick c4State).2 = 2 :=
  (loadMore_double_fire c4State (by decide) (by decide) (by decide) (by decide)).1

/-- An initial-render-like state for the C5 counterexample: no records
loaded yet, `hasMoreMeals` true, no load in flight. -/
def backfillState : MealsState :=
  { initialState with filteredMealsReady := true, loading := false }

/-- C5 counterexample: on this state the visible subset has fewer than 10
records, more pages are known to exist and no load is in flight, yet the
evaluation pass schedules no backfill fetch, because the effect also
requires `meals.length > 0`. -/
theorem backfill_not_triggered_on_empty :
    ((evaluateMeals backfillState.meals defaultFilters "").length < 10 ∧
      backfillState.hasMoreMeals = true ∧ backfillState.loadingMore = false) ∧
    (filterEffect backfillState defaultFilters "").2 = false := by decide

/-- C5 amended: an evaluation pass schedules exactly one (debounced)
backfill fetch precisely when the visible subset has fewer than 10
records, more pages are known to exist, no load-more is in flight, and
the loaded record set is non-empty; when any of these fails, no backfill
is scheduled. -/
theorem backfill_trigger_iff (s : MealsState) (filters : List NutritionFilter)
    (searchQuery : String) :
    (filterEffect s filters searchQuery).2 = true ↔
      ((evaluateMeals s.meals filters searchQuery).length < 10 ∧
        s.hasMoreMeals = true ∧ s.loadingMore = false ∧ s.meals ≠ []) := by
  simp [filterEffect, List.length_pos, and_assoc]

lemma revert_map_eq (mealId : MealId) (meals : List Meal) (m0 : Meal)
    (hfind : meals.find? (fun meal => decide (meal.id = mealId)) = some m0)
    (hnodup : (meals.map Meal.id).Nodup) :
    meals.map (fun meal =>
      if meal.id = mealId then { meal with favorite := m0.favorite } else meal) = meals := by
  have hinj := List.inj_on_of_nodup_map hnodup
  have hm0 : m0 ∈ meals := List.mem_of_find?_eq_some hfind
  have hm0id : m0.id = mealId := by simpa using List.find?_some hfind
  have h : ∀ meal ∈ meals,
      (if meal.id = mealId then { meal with favorite := m0.favorite } else meal) = meal := by
    intro meal hmeal
    by_cases hid : meal.id = mealId
    · have : meal = m0 := hinj hmeal hm0 (hid.trans hm0id.symm)
      subst this
      rw [if_pos hid]
    · rw [if_neg hid]
  calc meals.map (fun meal =>
        if meal.id = mealId then { meal with favorite := m0.favorite } else meal)
      = meals.map id := List.map_congr_left (by intro a ha; simpa using h a ha)
    _ = meals := List.map_id meals

/-- C6: when the record id is present (uniquely) in the local collection
and the remote update fails, `toggleFavorite` restores the record list to
exactly its pre-call value — the record's favorite flag equals the
captured pre-call value and every other record is unchanged — and an
error is surfaced. -/
theorem toggleFavorite_rollback (s : MealsState) (mealId : MealId) (msg : String)
    (m0 : Meal)
    (hguard : mealId ∉ s.favoriteLoading)
    (hmac : isMacroId mealId = false)
    (hfind : s.meals.find? (fun meal => decide (meal.id = mealId)) = some m0)
    (hnodup : (s.meals.map Meal.id).Nodup) :
    (toggleFavorite s mealId (.fail msg)).1.meals = s.meals ∧
    (toggleFavorite s mealId (.fail msg)).1.error.isSome = true := by
  have hrev := revert_map_eq mealId s.meals m0 hfind hnodup
  simp [toggleFavorite, hguard, hmac, hfind, hrev]

/-- The pre-call state used by the C6 witness. -/
def wStateAB : MealsState := { initialState with meals := [wMealA, wMealB] }

/-- Witness for C6: a failed remote update on record 1 leaves the
two-record collection exactly as captured and surfaces an error. -/
theorem toggleFavorite_rollback_witness :
    (toggleFavorite wStateAB (.num 1) (.fail "boom")).1.meals = wStateAB.meals ∧
    (toggleFavorite wStateAB (.num 1) (.fail "boom")).1.error.isSome = true :=
  toggleFavorite_rollback wStateAB (.num 1) "boom" wMealA
    (by decide) (by decide) (by decide) (by decide)

/-- C7: toggling a derived record (a string id with the "macro_"
namespace) is a complete no-op — no remote call, no state change — and a
fresh toggle of an id that is absent from the local collection issues no
remote call, changes no record, and surfaces the "Meal not found"
error. -/
theorem toggleFavorite_guards (s : MealsState) (mealId : MealId)
    (remote : RemoteResult) :
    (isMacroId mealId = true → toggleFavorite s mealId remote = (s, false)) ∧
    (mealId ∉ s.favoriteLoading → isMacroId mealId = false →
      s.meals.find? (fun meal => decide (meal.id = mealId)) = none →
      toggleFavorite s mealId remote =
        ({ s with error := some "Meal not found" }, false)) := by
  constructor
  · intro hmac
    by_cases hmem : mealId ∈ s.favoriteLoading <;> simp [toggleFavorite, hmac, hmem]
  · intro h1 h2 h3
    simp [toggleFavorite, h1, h2, h3]

/-- Witness for C7: on a concrete state, toggling "macro_42" is a no-op
and toggling the absent id 999 surfaces "Meal not found" without a
remote call. -/
theorem toggleFavorite_guards_witness :
    toggleFavorite wStateAB (.str "macro_42") .ok = (wStateAB, false) ∧
    toggleFavorite wStateAB (.num 999) .ok =
      ({ wStateAB with error := some "Meal not found" }, false) :=
  ⟨(toggleFavorite_guards wStateAB (.str "macro_42") .ok).1 (by decide),
   (toggleFavorite_guards wStateAB (.num 999) .ok).2 (by decide) (by decide) (by decide)⟩

/-- C8: the code contradicts the claim and its own `// 1s, 2s, 4s`
comment.  Every attempt of an automatic retry chain re-invokes the same
`fetchMyMeals` closure, whose captured `retryCount` stays at its
render-time value of 0 — `setRetryCount(prev => prev + 1)` updates only
the store — so every non-authentication failure passes `retryCount < 3`
and schedules another retry after a constant `2 ^ 0 * 1000 = 1000` ms:
the delays of a run of any number of consecutive non-authentication
failures are all 1 s (never 2 s or 4 s) and the run never stops after
three retries. -/
theorem fetch_retry_stale_closure (store : MealsState) (isRefresh loadMore : Bool)
    (msgs : List String)
    (hna : ∀ m ∈ msgs, strIncludes m "Authentication" = false) :
    retryRun store 0 isRefresh loadMore msgs = List.replicate msgs.length 1000 := by
  induction msgs generalizing store with
  | nil => rfl
  | cons m rest ih =>
    have hm := hna m (by simp)
    simp [retryRun, fetchFailureStep, hm, List.replicate_succ]
    exact ih _ (fun x hx => hna x (by simp [hx]))

/-- Witness for C8: four consecutive network errors through the closure
captured with `retryCount = 0` are all retried after the same 1 s delay —
not the claimed 1 s, 2 s, 4 s backoff with no fourth retry. -/
theorem fetch_retry_stale_closure_witness :
    retryRun initialState 0 true false
      ["network error", "network error", "network error", "network error"] =
      [1000, 1000, 1000, 1000] ∧
    ([1000, 1000, 1000, 1000] : List Nat) ≠ [1000, 2000, 4000] :=
  ⟨(fetch_retry_stale_closure initialState true false
      ["network error", "network error", "network error", "network error"]
      (by decide)).trans (by decide),
   by decide⟩

lemma lookup_map_pair (f : String → List Meal) (d : String) (dates : List String)
    (hd : d ∈ dates) :
    (dates.map (fun x => (x, f x))).lookup d = some (f d) := by
  induction dates with
  | nil => cases hd
  | cons a rest ih =>
    by_cases hda : d = a
    · subst hda
      simp [List.lookup]
    · have hd' : d ∈ rest := by
        rcases List.mem_cons.mp hd with h | h
        · exact absurd h hda
        · exact h
      have hbeq : (d == a) = false := beq_eq_false_iff_ne.mpr hda
      simpa [List.lookup, hbeq] using ih hd'

lemma lookup_append_left (l1 l2 : List (String × List Meal)) (d : String)
    (v : List Meal) (h : l1.lookup d = some v) : (l1 ++ l2).lookup d = some v := by
  induction l1 with
  | nil => simp [List.lookup] at h
  | cons p rest ih =>
    rcases p with ⟨k, w⟩
    by_cases hdk : d = k
    · subst hdk
      simpa [List.lookup] using h
    · have hbeq : (d == k) = false := beq_eq_false_iff_ne.mpr hdk
      simp only [List.cons_append]
      simp [List.lookup, hbeq] at h ⊢
      exact ih h

/-- C9: the week-range load joins one independent per-date fetch per
requested day and publishes the merged per-date record map; for every
assignment of per-date outcomes — hence for every subset of failing
dates, each failed date resolving to the empty list after its retries —
the join completes and the published map carries, for every requested
date, exactly that date's own result, so one date's failure never
prevents another date's records from being shown. -/
theorem week_join_failure_isolation (prevMeals : List (String × List Meal))
    (dates : List String) (fetchOutcome : String → Except String (List Meal))
    (d : String) (hd : d ∈ dates) :
    (publishWeek prevMeals dates fetchOutcome).lookup d =
      some (dateFetchResult (fetchOutcome d)) := by
  unfold publishWeek weekNewMeals
  exact lookup_append_left _ _ _ _
    (lookup_map_pair (fun x => dateFetchResult (fetchOutcome x)) d dates hd)

/-- A concrete week outcome for the C9 witness: the first date fails, the
second succeeds. -/
def wOutcome : String → Except String (List Meal) :=
  fun d => if d = "2025-01-06" then .error "network timeout" else .ok [wMealA]

/-- Witness for C9: with the first date failing and the second
succeeding, the published map still shows the successful date's records
and the failed date resolves to the empty list. -/
theorem week_join_failure_isolation_witness :
    (publishWeek [] ["2025-01-06", "2025-01-07"] wOutcome).lookup "2025-01-07" =
      some [wMealA] ∧
    (publishWeek [] ["2025-01-06", "2025-01-07"] wOutcome).lookup "2025-01-06" =
      some [] :=
  ⟨(week_join_failure_isolation [] ["2025-01-06", "2025-01-07"] wOutcome
      "2025-01-07" (by decide)).trans (by decide),
   (week_join_failure_isolation [] ["2025-01-06", "2025-01-07"] wOutcome
      "2025-01-06" (by decide)).trans (by decide)⟩

lemma foldl_nutrition (l : List Meal) : ∀ acc : NutritionTotals,
    l.foldl nutritionStep acc =
      ⟨acc.calories + (l.map (fun m => m.calories.getD 0)).sum,
       acc.protein + (l.map (fun m => m.protein.getD 0)).sum,
       acc.carbs + (l.map (fun m => m.carbohydrates.getD 0)).sum,
       acc.fat + (l.map (fun m => m.fat.getD 0)).sum⟩ := by
  induction l with
  | nil => intro acc; simp
  | cons m t ih => intro acc; simp [ih, nutritionStep, add_assoc]

/-- C10: the daily nutrition total is the component-wise sum of the
calories, protein, carbohydrate and fat fields over the day's records,
a missing field contributing 0, and the empty list yields
(0, 0, 0, 0). -/
theorem nutrition_totals_componentwise (mealsForDay : List Meal) :
    calculateNutritionTotals mealsForDay =
      ⟨(mealsForDay.map (fun m => m.calories.getD 0)).sum,
       (mealsForDay.map (fun m => m.protein.getD 0)).sum,
       (mealsForDay.map (fun m => m.carbohydrates.getD 0)).sum,
       (mealsForDay.map (fun m => m.fat.getD 0)).sum⟩ ∧
    calculateNutritionTotals [] = ⟨0, 0, 0, 0⟩ := by
  refine ⟨?_, rfl⟩
  unfold calculateNutritionTotals
  simpa using foldl_nutrition mealsForDay ⟨0, 0, 0, 0⟩

/-- Witness for C1: the sample record (600 kcal) passes the bound pair
(200, 1000) since 200 < 600 < 1000 holds strictly. -/
theorem filter_strict_bounds_iff_witness :
    passesFilters wMealA [⟨.calories, some 200, some 1000⟩] = true :=
  (filter_strict_bounds_iff wMealA [⟨.calories, some 200, some 1000⟩]).mpr (by
    intro f hf
    have hf' : f = ⟨.calories, some 200, some 1000⟩ := by simpa using hf
    subst hf'
    refine ⟨?_, ?_⟩
    · intro v g hv hg
      have hv' : (600 : ℚ) = v := by simpa [wMealA, getField] using hv
      have hg' : (200 : ℚ) = g := by simpa using hg
      subst hv'; subst hg'
      norm_num
    · intro v l hv hl
      have hv' : (600 : ℚ) = v := by simpa [wMealA, getField] using hv
      have hl' : (1000 : ℚ) = l := by simpa using hl
      subst hv'; subst hl'
      norm_num)

/-- Witness for the amended C3: a one-record batch (1 ≠ 20) marks the
last page, and with `hasMoreMeals` false `loadMore` issues nothing. -/
theorem hasMore_iff_batch_ne_page_size_witness :
    (applyFetchSuccess initialState false [wMealA]).hasMoreMeals = false ∧
    (loadMoreMeals { initialState with hasMoreMeals := false }).2 = false :=
  ⟨(hasMore_iff_batch_ne_page_size initialState false [wMealA]).1.mpr (by decide),
   (hasMore_iff_batch_ne_page_size initialState false [wMealA]).2⟩

/-- A loaded one-record state on which the backfill conditions all hold,
used by the amended C5 witness. -/
def c5TriggerState : MealsState :=
  { initialState with meals := [wMealA], loading := false }

/-- Witness for the amended C5: with one visible record, more pages
available, no load in flight and a non-empty record set, the evaluation
pass schedules the backfill. -/
theorem backfill_trigger_iff_witness :
    (filterEffect c5TriggerState defaultFilters "").2 = true :=
  (backfill_trigger_iff c5TriggerState defaultFilters "").mpr (by decide)
